import Mathlib

/-!
# Verification of `cipher.background`

A shallow embedding of `cipher/background/contextmanagers.py` and
`cipher/background/thread.py`.  Effectful Python code is modelled as
explicit state passing: a computation of type `M α` takes a world state
and returns either a value or an exception, together with the final
state (exceptions carry the state, as Python exceptions do not undo
side effects).

The world state records the per-thread security interaction flag, the
database handle's open/close counters, the thread-local current-site
pointer, the transaction manager's ambient transaction and its
nextTid counter, the list of commit/abort events, the error log, an
`ext` counter usable by subclass hooks, and an instrumentation trace
that test hooks append to.
-/

/-- Exceptions are modelled by their message. -/
abbrev Err := String

/-- A transaction object: identity, optional user stamp, optional note
(description).  `transaction.interfaces.ITransaction`. -/
structure Txn where
  tid : Nat
  tuser : Option String
  tnote : Option String
deriving DecidableEq, Repr

/-- Observable transaction-manager events. -/
inductive TxnEvent where
  | committed (tid : Nat) : TxnEvent
  | aborted (tid : Nat) : TxnEvent
deriving DecidableEq, Repr

/-- Instrumentation events appended by test hooks. -/
inductive Event where
  | work : Event
  | cleanup : Event
  | probe (interaction : Bool) (site : Option Nat) (txnNote : Option String)
      (connOpen : Bool) : Event
  | sample (site : Option Nat) : Event
deriving DecidableEq, Repr

/-- The world state seen by one worker thread. -/
structure St where
  interaction : Bool
  dbOpened : Nat
  dbClosed : Nat
  site : Option Nat
  curTxn : Option Txn
  nextTid : Nat
  txnEvents : List TxnEvent
  logvals : List String
  ext : Nat
  trace : List Event
deriving DecidableEq, Repr

/-- Effectful computations: state in, value-or-exception and state out. -/
abbrev M (α : Type) := St → Except Err α × St

def mret {α : Type} (a : α) : M α := fun s => (Except.ok a, s)

def mbind {α β : Type} (x : M α) (f : α → M β) : M β := fun s =>
  match x s with
  | (Except.ok a, s1) => f a s1
  | (Except.error e, s1) => (Except.error e, s1)

def mthrow {α : Type} (e : Err) : M α := fun s => (Except.error e, s)

/-- Python `try ... except:` with a handler. -/
def mtryCatch {α : Type} (x : M α) (h : Err → M α) : M α := fun s =>
  match x s with
  | (Except.ok a, s1) => (Except.ok a, s1)
  | (Except.error e, s1) => h e s1

/-- Python `try ... finally:`.  The finaliser always runs; if it raises,
its exception replaces the body's. -/
def mtryFinally {α : Type} (x : M α) (fin : M Unit) : M α := fun s =>
  match x s with
  | (Except.ok a, s1) =>
      match fin s1 with
      | (Except.ok _, s2) => (Except.ok a, s2)
      | (Except.error e2, s2) => (Except.error e2, s2)
  | (Except.error e, s1) =>
      match fin s1 with
      | (Except.ok _, s2) => (Except.error e, s2)
      | (Except.error e2, s2) => (Except.error e2, s2)

/-! ## External collaborators (zope.security, zope.component.hooks,
the ZODB database handle, the transaction manager, logging) -/

/-- Models `zope.security.management.newInteraction`: raises if the calling
thread already has an interaction. -/
def newInteraction : M Unit := fun s =>
  if s.interaction then
    (Except.error "AssertionError: interaction already in progress", s)
  else (Except.ok (), { s with interaction := true })

/-- Models `zope.security.management.endInteraction`. -/
def endInteraction : M Unit := fun s =>
  (Except.ok (), { s with interaction := false })

/-- Models `db.open()`: bumps the handle's opened counter.  The connection is
modelled by `Unit`; object fetches go through `connGet`. -/
def dbOpen : M Unit := fun s =>
  (Except.ok (), { s with dbOpened := s.dbOpened + 1 })

/-- Models `conn.close()`: bumps the handle's closed counter. -/
def connClose : M Unit := fun s =>
  (Except.ok (), { s with dbClosed := s.dbClosed + 1 })

/-- Models `conn.get(oid)`: objects are modelled by their oids. -/
def connGet (oid : Nat) : M Nat := mret oid

/-- Models `zope.component.hooks.getSite()`. -/
def hooksGetSite : M (Option Nat) := fun s => (Except.ok s.site, s)

/-- Models `zope.component.hooks.setSite(site)`. -/
def hooksSetSite (v : Option Nat) : M Unit := fun s =>
  (Except.ok (), { s with site := v })

/-- Models `log.exception(msg)`: appends the message to the error log. -/
def logError (msg : String) : M Unit := fun s =>
  (Except.ok (), { s with logvals := s.logvals ++ [msg] })

/-- Models `transaction.begin()`: aborts (discards) the pending ambient
transaction, if any, and installs a fresh one. -/
def txnBegin : M Txn := fun s =>
  let discarded : List TxnEvent :=
    match s.curTxn with
    | some t => [TxnEvent.aborted t.tid]
    | none => []
  let t : Txn := ⟨s.nextTid, none, none⟩
  (Except.ok t,
    { s with curTxn := some t, nextTid := s.nextTid + 1,
             txnEvents := s.txnEvents ++ discarded })

/-- Models `transaction.commit()`: commits the ambient transaction (creating
one first if none is pending, as the manager's `get()` does). -/
def txnCommit : M Unit := fun s =>
  match s.curTxn with
  | some t =>
      (Except.ok (), { s with curTxn := none,
                              txnEvents := s.txnEvents ++ [TxnEvent.committed t.tid] })
  | none =>
      (Except.ok (), { s with curTxn := none, nextTid := s.nextTid + 1,
                              txnEvents := s.txnEvents ++ [TxnEvent.committed s.nextTid] })

/-- Models `transaction.abort()`: aborts the ambient transaction (creating
one first if none is pending, as the manager's `get()` does). -/
def txnAbort : M Unit := fun s =>
  match s.curTxn with
  | some t =>
      (Except.ok (), { s with curTxn := none,
                              txnEvents := s.txnEvents ++ [TxnEvent.aborted t.tid] })
  | none =>
      (Except.ok (), { s with curTxn := none, nextTid := s.nextTid + 1,
                              txnEvents := s.txnEvents ++ [TxnEvent.aborted s.nextTid] })

/-- Models `txn.setUser(user, path)`: sets the user attribute of the
transaction object to `path + " " + user`. -/
def txnSetUser (t : Txn) (u p : String) : M Unit := fun s =>
  match s.curTxn with
  | some c =>
      if c.tid = t.tid then
        (Except.ok (), { s with curTxn := some { c with tuser := some (p ++ " " ++ u) } })
      else (Except.ok (), s)
  | none => (Except.ok (), s)

/-- Models `txn.note(text)`: sets the description of the transaction object. -/
def txnNote (t : Txn) (n : String) : M Unit := fun s =>
  match s.curTxn with
  | some c =>
      if c.tid = t.tid then
        (Except.ok (), { s with curTxn := some { c with tnote := some n } })
      else (Except.ok (), s)
  | none => (Except.ok (), s)

/-! ## contextmanagers.py -/

/-- Translates `ZopeInteraction`: `newInteraction(); try: yield; finally:
endInteraction()`. -/
def ZopeInteraction {α : Type} (body : M α) : M α :=
  mbind newInteraction (fun _ => mtryFinally body endInteraction)

/-- Translates `ZodbConnection`: `with closing(db.open()) as conn: yield conn`. -/
def ZodbConnection {α : Type} (body : Unit → M α) : M α :=
  mbind dbOpen (fun _ => mtryFinally (body ()) connClose)

/-- Translates `ZopeSite`: save `hooks.getSite()`, set the new site, run the body,
and restore the saved value in a `finally`. -/
def ZopeSite {α : Type} (site : Nat) (body : M α) : M α :=
  mbind hooksGetSite (fun oldsite =>
    mtryFinally (mbind (hooksSetSite (some site)) (fun _ => body))
      (hooksSetSite oldsite))

/-- Python truthiness of an optional string argument (`if user:`):
`None` and the empty string are falsy. -/
def pyTruthy (o : Option String) : Bool :=
  match o with
  | none => false
  | some x => if x = "" then false else true

/-- The two stamping methods `ZopeTransaction` calls on the transaction
object, kept abstract so that failing collaborators can be studied. -/
structure TxnObjOps where
  setUser : Txn → String → String → M Unit
  note : Txn → String → M Unit

/-- The real collaborator methods of the `transaction` package. -/
def realOps : TxnObjOps := ⟨txnSetUser, txnNote⟩

/-- The `if user: txn.setUser(user, path)` / `if note: txn.note(note)`
prologue of `ZopeTransaction`. -/
def txnStamp (ops : TxnObjOps) (t : Txn) (user note : Option String)
    (path : String) : M Unit :=
  mbind (if pyTruthy user then ops.setUser t (user.getD "") path else mret ())
    (fun _ => if pyTruthy note then ops.note t (note.getD "") else mret ())

/-- Translates `ZopeTransaction`, generic in the transaction-object methods:
`txn = transaction.begin()` outside the `try`, then stamping, the body,
and `transaction.commit()` inside it; the `except` clause aborts the
ambient transaction and re-raises. -/
def ZopeTransactionG {α : Type} (ops : TxnObjOps) (user note : Option String)
    (path : String) (body : Txn → M α) : M α :=
  mbind txnBegin (fun t =>
    mtryCatch
      (mbind (txnStamp ops t user note path) (fun _ =>
        mbind (body t) (fun a =>
          mbind txnCommit (fun _ => mret a))))
      (fun e => mbind txnAbort (fun _ => mthrow e)))

/-- Specialises `ZopeTransactionG` to the real `transaction` package methods. -/
def ZopeTransaction {α : Type} (user note : Option String) (path : String)
    (body : Txn → M α) : M α :=
  ZopeTransactionG realOps user note path body

/-! ## thread.py: note templates -/

/-- Split a character list at the first `)` character; returns the key and the
remainder after the `)`. -/
def splitKey : List Char → Option (List Char × List Char)
  | [] => none
  | c :: rest =>
      if c = ')' then some ([], rest)
      else
        match splitKey rest with
        | some (k, r) => some (c :: k, r)
        | none => none

/-- One pass of Python `%`-formatting with a mapping, restricted to the
`%(key)s` and `%%` conversions the templates use.  Returns `none` when
the template is malformed or a key is missing (Python raises
`ValueError`/`KeyError` there). -/
def pformatAux (m : String → Option String) : Nat → List Char → Option (List Char)
  | _, [] => some []
  | 0, _ :: _ => none
  | Nat.succ f, c :: rest =>
      if c = '%' then
        match rest with
        | [] => none
        | c2 :: rest2 =>
            if c2 = '(' then
              match splitKey rest2 with
              | some (k, rest3) =>
                  match rest3 with
                  | [] => none
                  | c3 :: rest4 =>
                      if c3 = 's' then
                        match m (String.mk k) with
                        | some v => Option.map (fun t => v.data ++ t) (pformatAux m f rest4)
                        | none => none
                      else none
              | none => none
            else if c2 = '%' then Option.map (fun t => '%' :: t) (pformatAux m f rest2)
            else none
      else Option.map (fun t => c :: t) (pformatAux m f rest)

/-- Applies `template % mapping` for the supported conversions. -/
def pformat (m : String → Option String) (tmpl : String) : Option String :=
  Option.map String.mk (pformatAux m tmpl.data.length tmpl.data)

/-- The identifying state of a `BackgroundWorkerThread` instance. -/
structure ThreadCfg where
  name : String
  class_name : String
  site_name : String
  user_name : String
  site_oid : Nat
  work_transaction_note : String
  cleanup_transaction_note : String
deriving DecidableEq, Repr

/-- The substitution mapping used by the note templates. -/
def noteMapping (cfg : ThreadCfg) : String → Option String := fun k =>
  if k = "thread_name" then some cfg.name
  else if k = "class_name" then some cfg.class_name
  else if k = "site_name" then some cfg.site_name
  else if k = "user_name" then some cfg.user_name
  else none

/-- Translates `BackgroundWorkerThread.getTransactionNote`. -/
def getTransactionNote (cfg : ThreadCfg) : Option String :=
  pformat (noteMapping cfg) cfg.work_transaction_note

/-- Translates `BackgroundWorkerThread.getCleanupNote`. -/
def getCleanupNote (cfg : ThreadCfg) : Option String :=
  pformat (noteMapping cfg) cfg.cleanup_transaction_note

/-- Wraps `getTransactionNote` as an effectful call (raises on a malformed
template or missing key, as Python `%`-formatting does). -/
def getTransactionNoteM (cfg : ThreadCfg) : M String := fun s =>
  match getTransactionNote cfg with
  | some v => (Except.ok v, s)
  | none => (Except.error "ValueError: bad work note template", s)

/-- Wraps `getCleanupNote` as an effectful call. -/
def getCleanupNoteM (cfg : ThreadCfg) : M String := fun s =>
  match getCleanupNote cfg with
  | some v => (Except.ok v, s)
  | none => (Except.error "ValueError: bad cleanup note template", s)

/-! ## thread.py: the run loop -/

/-- The three extension points a subclass overrides. -/
structure Hooks where
  scheduleNextWork : M Bool
  doWork : M Unit
  doCleanup : M Unit

/-- The work half of one iteration: compute the work note and run
`doWork` inside `ZopeTransaction(user=..., note=...)`. -/
def workPhase (cfg : ThreadCfg) (h : Hooks) : M Unit :=
  mbind (getTransactionNoteM cfg) (fun wnote =>
    ZopeTransaction (some cfg.user_name) (some wnote) "/" (fun _ => h.doWork))

/-- The `finally` half of one iteration: compute the cleanup note and
run `doCleanup` inside a brand-new `ZopeTransaction`. -/
def cleanupPhase (cfg : ThreadCfg) (h : Hooks) : M Unit :=
  mbind (getCleanupNoteM cfg) (fun cnote =>
    ZopeTransaction (some cfg.user_name) (some cnote) "/" (fun _ => h.doCleanup))

/-- One loop iteration of `run()`: interaction, connection, then a
`try`/`except` whose body fetches the site, opens the site scope and
runs the work phase guarded by the cleanup phase in a `finally`;
the `except` clause logs and swallows. -/
def iteration (cfg : ThreadCfg) (h : Hooks) : M Unit :=
  ZopeInteraction
    (ZodbConnection (fun _conn =>
      mtryCatch
        (mbind (connGet cfg.site_oid) (fun site =>
          ZopeSite site (mtryFinally (workPhase cfg h) (cleanupPhase cfg h))))
        (fun _e => logError ("Exception in " ++ cfg.name))))

/-- The `while self.scheduleNextWork():` loop, with fuel bounding the
number of schedule calls (the Python loop is not a priori terminating). -/
def runLoop (cfg : ThreadCfg) (h : Hooks) : Nat → M Unit
  | 0 => mret ()
  | Nat.succ n =>
      mbind h.scheduleNextWork (fun more =>
        if more then mbind (iteration cfg h) (fun _ => runLoop cfg h n)
        else mret ())

/-- Translates `BackgroundWorkerThread.run`: the loop wrapped in the outermost
`try`/`except` that logs "thread terminated". -/
def threadRun (cfg : ThreadCfg) (h : Hooks) (fuel : Nat) : M Unit :=
  mtryCatch (runLoop cfg h fuel)
    (fun _e => logError ("Exception in " ++ cfg.name ++ ", thread terminated"))

/-! ## Test hooks -/

/-- A scheduler with `ext` remaining tasks: returns true and decrements
while tasks remain, then false. -/
def schedCounter : M Bool := fun s =>
  if s.ext = 0 then (Except.ok false, s)
  else (Except.ok true, { s with ext := s.ext - 1 })

/-- A scheduler that raises once the `ext` tasks are exhausted. -/
def schedRaise : M Bool := fun s =>
  if s.ext = 0 then (Except.error "RuntimeError: scheduling failed", s)
  else (Except.ok true, { s with ext := s.ext - 1 })

/-- A `doWork` that records its invocation. -/
def workRecord : M Unit := fun s =>
  (Except.ok (), { s with trace := s.trace ++ [Event.work] })

/-- A `doCleanup` that records its invocation. -/
def cleanupRecord : M Unit := fun s =>
  (Except.ok (), { s with trace := s.trace ++ [Event.cleanup] })

/-- A `doWork` that records its invocation and then raises. -/
def workThenRaise : M Unit := fun s =>
  (Except.error "RuntimeError: work failed", { s with trace := s.trace ++ [Event.work] })

/-- A `doCleanup` that records the ambient environment it observes:
interaction flag, current site, the ambient transaction's note, and
whether a connection is open. -/
def probeCleanup : M Unit := fun s =>
  (Except.ok (),
    { s with trace := s.trace ++
        [Event.probe s.interaction s.site (Option.bind s.curTxn Txn.tnote)
          (decide (s.dbClosed < s.dbOpened))] })

/-- Hooks for the plain counting scenario. -/
def hooksOk : Hooks := ⟨schedCounter, workRecord, cleanupRecord⟩

/-- Hooks where scheduling eventually raises. -/
def hooksSchedRaise : Hooks := ⟨schedRaise, workRecord, cleanupRecord⟩

/-- Hooks where `doWork` raises and `doCleanup` probes its environment. -/
def hooksWorkRaise : Hooks := ⟨schedCounter, workThenRaise, probeCleanup⟩

/-- Hooks where `doWork` records and `doCleanup` probes. -/
def hooksProbe : Hooks := ⟨schedCounter, workRecord, probeCleanup⟩

/-- Append the current site to the trace (a sampling point). -/
def sampleSite : M Unit := fun s =>
  (Except.ok (), { s with trace := s.trace ++ [Event.sample s.site] })

/-- Enter site scope `a`, sample, enter site scope `b`, sample, exit
`b`, sample, exit `a`, sample. -/
def siteNestScenario (a b : Nat) : M Unit :=
  mbind
    (ZopeSite a
      (mbind sampleSite (fun _ =>
        mbind (ZopeSite b sampleSite) (fun _ => sampleSite))))
    (fun _ => sampleSite)

/-- A baseline state used by concrete witnesses. -/
def st0 : St :=
  { interaction := false, dbOpened := 0, dbClosed := 0, site := none,
    curTxn := none, nextTid := 0, txnEvents := [], logvals := [],
    ext := 0, trace := [] }

/-- A baseline thread configuration with the default note templates. -/
def cfg0 : ThreadCfg :=
  { name := "background worker thread (T) for testsite",
    class_name := "T", site_name := "testsite", user_name := "someuser",
    site_oid := 42,
    work_transaction_note := "%(thread_name)s",
    cleanup_transaction_note := "%(thread_name)s cleanup" }

/-- The tid of the ambient transaction that `transaction.commit()` or
`transaction.abort()` would act on in state `s`. -/
def ambientTid (s : St) : Nat :=
  match s.curTxn with
  | some c => c.tid
  | none => s.nextTid

/-- The entry phase of `ZopeTransaction` in isolation: begin a fresh
transaction and stamp user and note on it. -/
def txnScopeEnter (user note : Option String) (path : String) : M Txn :=
  mbind txnBegin (fun t =>
    mbind (txnStamp realOps t user note path) (fun _ => mret t))

/-- The expected trace of `N` successful iterations: alternating
work-then-cleanup pairs. -/
def workCleanupTrace : Nat → List Event
  | 0 => []
  | Nat.succ n => Event.work :: Event.cleanup :: workCleanupTrace n

/-- The probe event `probeCleanup` records during an iteration whose
`doWork` raised: interaction active, site set, cleanup note on the
ambient transaction, connection open. -/
def probeEvent (cfg : ThreadCfg) : Event :=
  Event.probe true (some cfg.site_oid) (some (cfg.name ++ " cleanup")) true

/-- The expected trace of `N` iterations whose `doWork` raises. -/
def workRaiseTrace (cfg : ThreadCfg) : Nat → List Event
  | 0 => []
  | Nat.succ n => Event.work :: probeEvent cfg :: workRaiseTrace cfg n

/-- Transaction-object methods that raise on every stamping attempt. -/
def failingOps : TxnObjOps :=
  ⟨fun _ _ _ => fun s => (Except.error "TypeError", s),
   fun _ _ => fun s => (Except.error "TypeError", s)⟩

/-! ## Evaluation helpers -/

theorem mbind_eval {α β : Type} (x : M α) (f : α → M β) (s : St) (a : α) (s1 : St)
    (hx : x s = (Except.ok a, s1)) : mbind x f s = f a s1 := by
  simp only [mbind]; rw [hx]

theorem mbind_eval_err {α β : Type} (x : M α) (f : α → M β) (s : St) (e : Err) (s1 : St)
    (hx : x s = (Except.error e, s1)) : mbind x f s = (Except.error e, s1) := by
  simp only [mbind]; rw [hx]

theorem mtryCatch_eval_ok {α : Type} (x : M α) (h : Err → M α) (s : St) (a : α) (s1 : St)
    (hx : x s = (Except.ok a, s1)) : mtryCatch x h s = (Except.ok a, s1) := by
  simp only [mtryCatch]; rw [hx]

theorem mtryCatch_eval_err {α : Type} (x : M α) (h : Err → M α) (s : St) (e : Err) (s1 : St)
    (hx : x s = (Except.error e, s1)) : mtryCatch x h s = h e s1 := by
  simp only [mtryCatch]; rw [hx]

theorem mtryCatch_congr {α : Type} (x y : M α) (h : Err → M α) (s s2 : St)
    (hxy : x s = y s2) : mtryCatch x h s = mtryCatch y h s2 := by
  simp only [mtryCatch]; rw [hxy]

theorem mtryFinally_eval_ok {α : Type} (x : M α) (fin : M Unit) (s : St) (a : α)
    (s1 s2 : St) (hx : x s = (Except.ok a, s1)) (hf : fin s1 = (Except.ok (), s2)) :
    mtryFinally x fin s = (Except.ok a, s2) := by
  simp only [mtryFinally]; rw [hx]; dsimp only; rw [hf]

theorem mtryFinally_eval_err {α : Type} (x : M α) (fin : M Unit) (s : St) (e : Err)
    (s1 s2 : St) (hx : x s = (Except.error e, s1)) (hf : fin s1 = (Except.ok (), s2)) :
    mtryFinally x fin s = (Except.error e, s2) := by
  simp only [mtryFinally]; rw [hx]; dsimp only; rw [hf]

theorem runLoop_succ_true (cfg : ThreadCfg) (h : Hooks) (n : Nat) (s s1 s2 : St)
    (hs : h.scheduleNextWork s = (Except.ok true, s1))
    (hi : iteration cfg h s1 = (Except.ok (), s2)) :
    runLoop cfg h (n + 1) s = runLoop cfg h n s2 := by
  show mbind h.scheduleNextWork
      (fun more => if more then mbind (iteration cfg h) (fun _ => runLoop cfg h n)
        else mret ()) s = runLoop cfg h n s2
  rw [mbind_eval _ _ s true s1 hs]
  show mbind (iteration cfg h) (fun _ => runLoop cfg h n) s1 = _
  rw [mbind_eval _ _ s1 () s2 hi]

theorem runLoop_succ_false (cfg : ThreadCfg) (h : Hooks) (n : Nat) (s s1 : St)
    (hs : h.scheduleNextWork s = (Except.ok false, s1)) :
    runLoop cfg h (n + 1) s = (Except.ok (), s1) := by
  show mbind h.scheduleNextWork
      (fun more => if more then mbind (iteration cfg h) (fun _ => runLoop cfg h n)
        else mret ()) s = (Except.ok (), s1)
  rw [mbind_eval _ _ s false s1 hs]
  rfl

theorem runLoop_succ_sched_err (cfg : ThreadCfg) (h : Hooks) (n : Nat) (s s1 : St) (e : Err)
    (hs : h.scheduleNextWork s = (Except.error e, s1)) :
    runLoop cfg h (n + 1) s = (Except.error e, s1) := by
  show mbind h.scheduleNextWork
      (fun more => if more then mbind (iteration cfg h) (fun _ => runLoop cfg h n)
        else mret ()) s = (Except.error e, s1)
  exact mbind_eval_err _ _ s e s1 hs

theorem runLoop_succ_iter_err (cfg : ThreadCfg) (h : Hooks) (n : Nat) (s s1 s2 : St) (e : Err)
    (hs : h.scheduleNextWork s = (Except.ok true, s1))
    (hi : iteration cfg h s1 = (Except.error e, s2)) :
    runLoop cfg h (n + 1) s = (Except.error e, s2) := by
  show mbind h.scheduleNextWork
      (fun more => if more then mbind (iteration cfg h) (fun _ => runLoop cfg h n)
        else mret ()) s = (Except.error e, s2)
  rw [mbind_eval _ _ s true s1 hs]
  show mbind (iteration cfg h) (fun _ => runLoop cfg h n) s1 = _
  exact mbind_eval_err _ _ s1 e s2 hi

theorem threadRun_eval_ok (cfg : ThreadCfg) (h : Hooks) (fuel : Nat) (s sf : St)
    (hr : runLoop cfg h fuel s = (Except.ok (), sf)) :
    threadRun cfg h fuel s = (Except.ok (), sf) := by
  show mtryCatch (runLoop cfg h fuel) _ s = _
  rw [mtryCatch_eval_ok _ _ s () sf hr]

theorem threadRun_eval_err (cfg : ThreadCfg) (h : Hooks) (fuel : Nat) (s sf : St) (e : Err)
    (hr : runLoop cfg h fuel s = (Except.error e, sf)) :
    threadRun cfg h fuel s =
      (Except.ok (),
        { sf with logvals := sf.logvals ++
            ["Exception in " ++ cfg.name ++ ", thread terminated"] }) := by
  show mtryCatch (runLoop cfg h fuel) _ s = _
  rw [mtryCatch_eval_err _ _ s e sf hr]
  rfl

/-! ## Note-template lemmas -/

theorem pformat_thread_name (cfg : ThreadCfg) :
    pformat (noteMapping cfg) "%(thread_name)s" = some cfg.name := by
  show some (String.mk (cfg.name.data ++ [])) = some cfg.name
  rw [List.append_nil]

theorem pformat_thread_name_cleanup (cfg : ThreadCfg) :
    pformat (noteMapping cfg) "%(thread_name)s cleanup" = some (cfg.name ++ " cleanup") := by
  rfl

theorem pformat_site_user (cfg : ThreadCfg) :
    pformat (noteMapping cfg) "work for %(site_name)s on behalf of %(user_name)s" =
      some ("work for " ++ cfg.site_name ++ " on behalf of " ++ cfg.user_name) := by
  show some (String.mk ("work for ".data ++ (cfg.site_name.data ++
        (" on behalf of ".data ++ (cfg.user_name.data ++ []))))) =
       some (String.mk ((("work for ".data ++ cfg.site_name.data) ++
        " on behalf of ".data) ++ cfg.user_name.data))
  rw [List.append_nil, List.append_assoc, List.append_assoc]

theorem cleanup_note_ne_empty (n : String) : (n ++ " cleanup") ≠ "" := by
  obtain ⟨l⟩ := n
  intro h
  have h2 : l ++ " cleanup".data = [] := congrArg String.data h
  simp at h2

theorem getTransactionNoteM_default (cfg : ThreadCfg)
    (hW : cfg.work_transaction_note = "%(thread_name)s") :
    getTransactionNoteM cfg = fun s => (Except.ok cfg.name, s) := by
  have h1 : getTransactionNote cfg = some cfg.name := by
    rw [getTransactionNote, hW]; exact pformat_thread_name cfg
  funext s
  rw [getTransactionNoteM, h1]

theorem getCleanupNoteM_default (cfg : ThreadCfg)
    (hC : cfg.cleanup_transaction_note = "%(thread_name)s cleanup") :
    getCleanupNoteM cfg = fun s => (Except.ok (cfg.name ++ " cleanup"), s) := by
  have h1 : getCleanupNote cfg = some (cfg.name ++ " cleanup") := by
    rw [getCleanupNote, hC]; exact pformat_thread_name_cleanup cfg
  funext s
  rw [getCleanupNoteM, h1]

/-! ## Characterisation of one successful iteration -/

theorem iteration_ok (cfg : ThreadCfg) (h : Hooks) (s : St)
    (hW : cfg.work_transaction_note = "%(thread_name)s")
    (hC : cfg.cleanup_transaction_note = "%(thread_name)s cleanup")
    (hw : h.doWork = workRecord) (hc : h.doCleanup = cleanupRecord)
    (hi : s.interaction = false) (ht : s.curTxn = none) :
    iteration cfg h s =
      (Except.ok (),
        { s with interaction := false,
                 dbOpened := s.dbOpened + 1, dbClosed := s.dbClosed + 1,
                 curTxn := none,
                 nextTid := s.nextTid + 2,
                 txnEvents := s.txnEvents ++
                   [TxnEvent.committed s.nextTid, TxnEvent.committed (s.nextTid + 1)],
                 trace := s.trace ++ [Event.work, Event.cleanup] }) := by
  by_cases hu : cfg.user_name = "" <;> by_cases hn : cfg.name = "" <;>
    simp [iteration, ZopeInteraction, ZodbConnection, ZopeSite, workPhase, cleanupPhase,
      ZopeTransaction, ZopeTransactionG, txnStamp, realOps, txnSetUser, txnNote,
      mbind, mret, mtryCatch, mtryFinally, mthrow, newInteraction, endInteraction,
      dbOpen, connClose, connGet, hooksGetSite, hooksSetSite, logError,
      txnBegin, txnCommit, txnAbort, pyTruthy,
      getTransactionNoteM_default cfg hW, getCleanupNoteM_default cfg hC,
      hw, hc, workRecord, cleanupRecord, hi, ht, hu, hn, cleanup_note_ne_empty]

theorem runLoop_counts (cfg : ThreadCfg)
    (hW : cfg.work_transaction_note = "%(thread_name)s")
    (hC : cfg.cleanup_transaction_note = "%(thread_name)s cleanup") (N : Nat) :
    ∀ s : St, s.ext = N → s.interaction = false → s.curTxn = none →
    ∃ sf : St, runLoop cfg hooksOk (N + 1) s = (Except.ok (), sf) ∧
      sf.trace = s.trace ++ workCleanupTrace N ∧
      sf.dbOpened = s.dbOpened + N ∧ sf.dbClosed = s.dbClosed + N ∧
      sf.logvals = s.logvals := by
  induction N with
  | zero =>
      intro s hx hi ht
      refine ⟨s, runLoop_succ_false cfg hooksOk 0 s s ?_, ?_, rfl, rfl, rfl⟩
      · show schedCounter s = _
        simp [schedCounter, hx]
      · simp [workCleanupTrace]
  | succ m ih =>
      intro s hx hi ht
      have hs : hooksOk.scheduleNextWork s = (Except.ok true, { s with ext := m }) := by
        show schedCounter s = _
        simp [schedCounter, hx]
      have hit := iteration_ok cfg hooksOk { s with ext := m } hW hC rfl rfl hi ht
      obtain ⟨sf, hrun, htr, ho, hcl, hlg⟩ :=
        ih { s with ext := m, interaction := false,
                    dbOpened := s.dbOpened + 1, dbClosed := s.dbClosed + 1,
                    curTxn := none, nextTid := s.nextTid + 2,
                    txnEvents := s.txnEvents ++
                      [TxnEvent.committed s.nextTid, TxnEvent.committed (s.nextTid + 1)],
                    trace := s.trace ++ [Event.work, Event.cleanup] } rfl rfl rfl
      refine ⟨sf, ?_, ?_, ?_, ?_, ?_⟩
      · rw [runLoop_succ_true cfg hooksOk (m + 1) s { s with ext := m } _ hs hit]
        exact hrun
      · rw [htr]
        simp [workCleanupTrace, List.append_assoc]
      · rw [ho]; dsimp only; omega
      · rw [hcl]; dsimp only; omega
      · exact hlg

/-- C1: a worker thread whose `scheduleNextWork` returns true exactly `N`
times and then false invokes `doWork` and `doCleanup` exactly `N` times
each, in alternating work-then-cleanup order per iteration, and the
database handle's connection open and close counters each increase by
exactly `N`. -/
theorem run_counts_work_cleanup (cfg : ThreadCfg)
    (hW : cfg.work_transaction_note = "%(thread_name)s")
    (hC : cfg.cleanup_transaction_note = "%(thread_name)s cleanup")
    (N : Nat) (s : St) (hx : s.ext = N) (hi : s.interaction = false)
    (ht : s.curTxn = none) :
    ∃ sf : St, threadRun cfg hooksOk (N + 1) s = (Except.ok (), sf) ∧
      sf.trace = s.trace ++ workCleanupTrace N ∧
      sf.dbOpened = s.dbOpened + N ∧ sf.dbClosed = s.dbClosed + N := by
  obtain ⟨sf, hrun, htr, ho, hcl, _⟩ := runLoop_counts cfg hW hC N s hx hi ht
  exact ⟨sf, threadRun_eval_ok cfg hooksOk (N + 1) s sf hrun, htr, ho, hcl⟩

/-- Witness for C1 at `N = 2` on a concrete thread and initial state. -/
theorem run_counts_work_cleanup_witness :
    ∃ sf : St, threadRun cfg0 hooksOk 3 { st0 with ext := 2 } = (Except.ok (), sf) ∧
      sf.trace = ({ st0 with ext := 2 } : St).trace ++ workCleanupTrace 2 ∧
      sf.dbOpened = ({ st0 with ext := 2 } : St).dbOpened + 2 ∧
      sf.dbClosed = ({ st0 with ext := 2 } : St).dbClosed + 2 :=
  run_counts_work_cleanup cfg0 rfl rfl 2 { st0 with ext := 2 } rfl rfl rfl

/-! ## Scheduling failure -/

theorem runLoop_schedRaise (cfg : ThreadCfg)
    (hW : cfg.work_transaction_note = "%(thread_name)s")
    (hC : cfg.cleanup_transaction_note = "%(thread_name)s cleanup") (N : Nat) :
    ∀ s : St, s.ext = N → s.interaction = false → s.curTxn = none →
    ∃ sf : St, runLoop cfg hooksSchedRaise (N + 1) s =
        (Except.error "RuntimeError: scheduling failed", sf) ∧
      sf.trace = s.trace ++ workCleanupTrace N ∧ sf.logvals = s.logvals := by
  induction N with
  | zero =>
      intro s hx hi ht
      refine ⟨s, runLoop_succ_sched_err cfg hooksSchedRaise 0 s s _ ?_, ?_, rfl⟩
      · show schedRaise s = _
        simp [schedRaise, hx]
      · simp [workCleanupTrace]
  | succ m ih =>
      intro s hx hi ht
      have hs : hooksSchedRaise.scheduleNextWork s = (Except.ok true, { s with ext := m }) := by
        show schedRaise s = _
        simp [schedRaise, hx]
      have hit := iteration_ok cfg hooksSchedRaise { s with ext := m } hW hC rfl rfl hi ht
      obtain ⟨sf, hrun, htr, hlg⟩ :=
        ih { s with ext := m, interaction := false,
                    dbOpened := s.dbOpened + 1, dbClosed := s.dbClosed + 1,
                    curTxn := none, nextTid := s.nextTid + 2,
                    txnEvents := s.txnEvents ++
                      [TxnEvent.committed s.nextTid, TxnEvent.committed (s.nextTid + 1)],
                    trace := s.trace ++ [Event.work, Event.cleanup] } rfl rfl rfl
      refine ⟨sf, ?_, ?_, ?_⟩
      · rw [runLoop_succ_true cfg hooksSchedRaise (m + 1) s { s with ext := m } _ hs hit]
        exact hrun
      · rw [htr]
        simp [workCleanupTrace, List.append_assoc]
      · exact hlg

/-- C4: whenever `scheduleNextWork` raises, the loop terminates at once:
`doWork`/`doCleanup` are not invoked for that attempt (the trace holds
only the `N` earlier pairs), and the logged message is the thread's
name with the ", thread terminated" suffix. -/
theorem run_schedule_raises_terminates (cfg : ThreadCfg)
    (hW : cfg.work_transaction_note = "%(thread_name)s")
    (hC : cfg.cleanup_transaction_note = "%(thread_name)s cleanup")
    (N : Nat) (s : St) (hx : s.ext = N) (hi : s.interaction = false)
    (ht : s.curTxn = none) :
    ∃ sf : St, threadRun cfg hooksSchedRaise (N + 1) s = (Except.ok (), sf) ∧
      sf.logvals = s.logvals ++
        ["Exception in " ++ cfg.name ++ ", thread terminated"] ∧
      sf.trace = s.trace ++ workCleanupTrace N := by
  obtain ⟨sf0, hrun, htr, hlg⟩ := runLoop_schedRaise cfg hW hC N s hx hi ht
  refine ⟨{ sf0 with logvals := sf0.logvals ++
      ["Exception in " ++ cfg.name ++ ", thread terminated"] },
    threadRun_eval_err cfg hooksSchedRaise (N + 1) s sf0 _ hrun, ?_, ?_⟩
  · dsimp only
    rw [hlg]
  · dsimp only
    exact htr

/-- Witness for C4 at `N = 2` on a concrete thread and initial state. -/
theorem run_schedule_raises_terminates_witness :
    ∃ sf : St, threadRun cfg0 hooksSchedRaise 3 { st0 with ext := 2 } = (Except.ok (), sf) ∧
      sf.logvals = ({ st0 with ext := 2 } : St).logvals ++
        ["Exception in " ++ cfg0.name ++ ", thread terminated"] ∧
      sf.trace = ({ st0 with ext := 2 } : St).trace ++ workCleanupTrace 2 :=
  run_schedule_raises_terminates cfg0 rfl rfl 2 { st0 with ext := 2 } rfl rfl rfl

/-! ## Iterations whose doWork raises -/

theorem iteration_workRaise (cfg : ThreadCfg) (h : Hooks) (s : St)
    (hW : cfg.work_transaction_note = "%(thread_name)s")
    (hC : cfg.cleanup_transaction_note = "%(thread_name)s cleanup")
    (hw : h.doWork = workThenRaise) (hc : h.doCleanup = probeCleanup)
    (hi : s.interaction = false) (ht : s.curTxn = none)
    (hdb : s.dbClosed ≤ s.dbOpened) :
    iteration cfg h s =
      (Except.ok (),
        { s with interaction := false,
                 dbOpened := s.dbOpened + 1, dbClosed := s.dbClosed + 1,
                 curTxn := none,
                 nextTid := s.nextTid + 2,
                 txnEvents := s.txnEvents ++
                   [TxnEvent.aborted s.nextTid, TxnEvent.committed (s.nextTid + 1)],
                 logvals := s.logvals ++ ["Exception in " ++ cfg.name],
                 trace := s.trace ++ [Event.work, probeEvent cfg] }) := by
  have hdec : decide (s.dbClosed < s.dbOpened + 1) = true :=
    decide_eq_true (Nat.lt_succ_of_le hdb)
  by_cases hu : cfg.user_name = "" <;> by_cases hn : cfg.name = "" <;>
    simp [iteration, ZopeInteraction, ZodbConnection, ZopeSite, workPhase, cleanupPhase,
      ZopeTransaction, ZopeTransactionG, txnStamp, realOps, txnSetUser, txnNote,
      mbind, mret, mtryCatch, mtryFinally, mthrow, newInteraction, endInteraction,
      dbOpen, connClose, connGet, hooksGetSite, hooksSetSite, logError,
      txnBegin, txnCommit, txnAbort, pyTruthy, probeEvent,
      getTransactionNoteM_default cfg hW, getCleanupNoteM_default cfg hC,
      hw, hc, workThenRaise, probeCleanup, hi, ht, hu, hn, hdec, cleanup_note_ne_empty]

theorem runLoop_workRaise (cfg : ThreadCfg)
    (hW : cfg.work_transaction_note = "%(thread_name)s")
    (hC : cfg.cleanup_transaction_note = "%(thread_name)s cleanup") (N : Nat) :
    ∀ s : St, s.ext = N → s.interaction = false → s.curTxn = none →
      s.dbClosed ≤ s.dbOpened →
    ∃ sf : St, runLoop cfg hooksWorkRaise (N + 1) s = (Except.ok (), sf) ∧
      sf.trace = s.trace ++ workRaiseTrace cfg N ∧
      sf.logvals = s.logvals ++ List.replicate N ("Exception in " ++ cfg.name) ∧
      sf.ext = 0 := by
  induction N with
  | zero =>
      intro s hx hi ht hdb
      refine ⟨s, runLoop_succ_false cfg hooksWorkRaise 0 s s ?_, ?_, ?_, hx⟩
      · show schedCounter s = _
        simp [schedCounter, hx]
      · simp [workRaiseTrace]
      · simp
  | succ m ih =>
      intro s hx hi ht hdb
      have hs : hooksWorkRaise.scheduleNextWork s = (Except.ok true, { s with ext := m }) := by
        show schedCounter s = _
        simp [schedCounter, hx]
      have hit := iteration_workRaise cfg hooksWorkRaise { s with ext := m } hW hC rfl rfl hi ht hdb
      obtain ⟨sf, hrun, htr, hlg, hext⟩ :=
        ih { s with ext := m, interaction := false,
                    dbOpened := s.dbOpened + 1, dbClosed := s.dbClosed + 1,
                    curTxn := none, nextTid := s.nextTid + 2,
                    txnEvents := s.txnEvents ++
                      [TxnEvent.aborted s.nextTid, TxnEvent.committed (s.nextTid + 1)],
                    logvals := s.logvals ++ ["Exception in " ++ cfg.name],
                    trace := s.trace ++ [Event.work, probeEvent cfg] } rfl rfl rfl
          (Nat.succ_le_succ hdb)
      refine ⟨sf, ?_, ?_, ?_, hext⟩
      · rw [runLoop_succ_true cfg hooksWorkRaise (m + 1) s { s with ext := m } _ hs hit]
        exact hrun
      · rw [htr]
        simp [workRaiseTrace, List.append_assoc]
      · rw [hlg]
        simp [List.replicate_succ, List.append_assoc]

/-- C3: if `doWork` raises on an iteration, `doCleanup` is still invoked
that same iteration, inside a brand-new transaction tagged with the
cleanup note while the interaction, connection and site scopes are
still open (the probe event records exactly that environment), and the
loop keeps asking `scheduleNextWork` (all `N` tasks are consumed and
the run ends normally). -/
theorem run_doWork_raises_cleanup_still_runs (cfg : ThreadCfg)
    (hW : cfg.work_transaction_note = "%(thread_name)s")
    (hC : cfg.cleanup_transaction_note = "%(thread_name)s cleanup")
    (N : Nat) (s : St) (hx : s.ext = N) (hi : s.interaction = false)
    (ht : s.curTxn = none) (hdb : s.dbClosed ≤ s.dbOpened) :
    ∃ sf : St, threadRun cfg hooksWorkRaise (N + 1) s = (Except.ok (), sf) ∧
      sf.trace = s.trace ++ workRaiseTrace cfg N ∧
      sf.logvals = s.logvals ++ List.replicate N ("Exception in " ++ cfg.name) ∧
      sf.ext = 0 := by
  obtain ⟨sf, hrun, htr, hlg, hext⟩ := runLoop_workRaise cfg hW hC N s hx hi ht hdb
  exact ⟨sf, threadRun_eval_ok cfg hooksWorkRaise (N + 1) s sf hrun, htr, hlg, hext⟩

/-- Witness for C3 at `N = 2` on a concrete thread and initial state. -/
theorem run_doWork_raises_cleanup_still_runs_witness :
    ∃ sf : St, threadRun cfg0 hooksWorkRaise 3 { st0 with ext := 2 } = (Except.ok (), sf) ∧
      sf.trace = ({ st0 with ext := 2 } : St).trace ++ workRaiseTrace cfg0 2 ∧
      sf.logvals = ({ st0 with ext := 2 } : St).logvals ++
        List.replicate 2 ("Exception in " ++ cfg0.name) ∧
      sf.ext = 0 :=
  run_doWork_raises_cleanup_still_runs cfg0 rfl rfl 2 { st0 with ext := 2 }
    rfl rfl rfl (Nat.le_refl 0)

/-! ## Work phase failing before doWork -/

theorem getTransactionNoteM_bogus (cfg : ThreadCfg)
    (hW : cfg.work_transaction_note = "%(bogus)s") :
    getTransactionNoteM cfg =
      fun s => (Except.error "ValueError: bad work note template", s) := by
  have h1 : getTransactionNote cfg = none := by
    rw [getTransactionNote, hW]; rfl
  funext s
  rw [getTransactionNoteM, h1]

theorem iteration_badWorkNote (cfg : ThreadCfg) (h : Hooks) (s : St)
    (hW : cfg.work_transaction_note = "%(bogus)s")
    (hC : cfg.cleanup_transaction_note = "%(thread_name)s cleanup")
    (hc : h.doCleanup = probeCleanup)
    (hi : s.interaction = false) (ht : s.curTxn = none)
    (hdb : s.dbClosed ≤ s.dbOpened) :
    iteration cfg h s =
      (Except.ok (),
        { s with interaction := false,
                 dbOpened := s.dbOpened + 1, dbClosed := s.dbClosed + 1,
                 curTxn := none,
                 nextTid := s.nextTid + 1,
                 txnEvents := s.txnEvents ++ [TxnEvent.committed s.nextTid],
                 logvals := s.logvals ++ ["Exception in " ++ cfg.name],
                 trace := s.trace ++ [probeEvent cfg] }) := by
  have hdec : decide (s.dbClosed < s.dbOpened + 1) = true :=
    decide_eq_true (Nat.lt_succ_of_le hdb)
  by_cases hu : cfg.user_name = "" <;> by_cases hn : cfg.name = "" <;>
    simp [iteration, ZopeInteraction, ZodbConnection, ZopeSite, workPhase, cleanupPhase,
      ZopeTransaction, ZopeTransactionG, txnStamp, realOps, txnSetUser, txnNote,
      mbind, mret, mtryCatch, mtryFinally, mthrow, newInteraction, endInteraction,
      dbOpen, connClose, connGet, hooksGetSite, hooksSetSite, logError,
      txnBegin, txnCommit, txnAbort, pyTruthy, probeEvent,
      getTransactionNoteM_bogus cfg hW, getCleanupNoteM_default cfg hC,
      hc, probeCleanup, hi, ht, hu, hn, hdec, cleanup_note_ne_empty]

/-- C10: `doCleanup` runs even when the work phase fails before `doWork`
starts — here computing the work transaction note raises — because the
cleanup clause guards the whole work-transaction scope: the trace holds
the cleanup probe but no work event, and the failure is logged with the
thread name. -/
theorem run_work_phase_failure_cleanup_runs (cfg : ThreadCfg) (s : St)
    (hW : cfg.work_transaction_note = "%(bogus)s")
    (hC : cfg.cleanup_transaction_note = "%(thread_name)s cleanup")
    (hx : s.ext = 1) (hi : s.interaction = false) (ht : s.curTxn = none)
    (hdb : s.dbClosed ≤ s.dbOpened) :
    ∃ sf : St, threadRun cfg hooksProbe 2 s = (Except.ok (), sf) ∧
      sf.trace = s.trace ++ [probeEvent cfg] ∧
      sf.logvals = s.logvals ++ ["Exception in " ++ cfg.name] := by
  have hs : hooksProbe.scheduleNextWork s = (Except.ok true, { s with ext := 0 }) := by
    show schedCounter s = _
    simp [schedCounter, hx]
  have hit := iteration_badWorkNote cfg hooksProbe { s with ext := 0 } hW hC rfl hi ht hdb
  have h2 : runLoop cfg hooksProbe 2 s =
      runLoop cfg hooksProbe 1
        { s with ext := 0, interaction := false,
                 dbOpened := s.dbOpened + 1, dbClosed := s.dbClosed + 1,
                 curTxn := none, nextTid := s.nextTid + 1,
                 txnEvents := s.txnEvents ++ [TxnEvent.committed s.nextTid],
                 logvals := s.logvals ++ ["Exception in " ++ cfg.name],
                 trace := s.trace ++ [probeEvent cfg] } :=
    runLoop_succ_true cfg hooksProbe 1 s { s with ext := 0 } _ hs hit
  have h3 : runLoop cfg hooksProbe 1
      { s with ext := 0, interaction := false,
               dbOpened := s.dbOpened + 1, dbClosed := s.dbClosed + 1,
               curTxn := none, nextTid := s.nextTid + 1,
               txnEvents := s.txnEvents ++ [TxnEvent.committed s.nextTid],
               logvals := s.logvals ++ ["Exception in " ++ cfg.name],
               trace := s.trace ++ [probeEvent cfg] } =
      (Except.ok (),
        { s with ext := 0, interaction := false,
                 dbOpened := s.dbOpened + 1, dbClosed := s.dbClosed + 1,
                 curTxn := none, nextTid := s.nextTid + 1,
                 txnEvents := s.txnEvents ++ [TxnEvent.committed s.nextTid],
                 logvals := s.logvals ++ ["Exception in " ++ cfg.name],
                 trace := s.trace ++ [probeEvent cfg] }) := by
    apply runLoop_succ_false
    simp [hooksProbe, schedCounter]
  refine ⟨_, threadRun_eval_ok cfg hooksProbe 2 s _ (h2.trans h3), ?_, ?_⟩ <;> rfl

/-- Witness for C10 on a concrete thread with a malformed work-note
template. -/
theorem run_work_phase_failure_cleanup_runs_witness :
    ∃ sf : St,
      threadRun { cfg0 with work_transaction_note := "%(bogus)s" } hooksProbe 2
        { st0 with ext := 1 } = (Except.ok (), sf) ∧
      sf.trace = ({ st0 with ext := 1 } : St).trace ++
        [probeEvent { cfg0 with work_transaction_note := "%(bogus)s" }] ∧
      sf.logvals = ({ st0 with ext := 1 } : St).logvals ++
        ["Exception in " ++ ({ cfg0 with work_transaction_note := "%(bogus)s" } : ThreadCfg).name] :=
  run_work_phase_failure_cleanup_runs { cfg0 with work_transaction_note := "%(bogus)s" }
    { st0 with ext := 1 } rfl rfl rfl rfl rfl (Nat.le_refl 0)

/-! ## Re-entrant interaction failure -/

theorem iteration_interaction_active (cfg : ThreadCfg) (h : Hooks) (s : St)
    (hi : s.interaction = true) :
    iteration cfg h s =
      (Except.error "AssertionError: interaction already in progress", s) := by
  simp [iteration, ZopeInteraction, mbind, newInteraction, hi]

/-- C5 (amended): if starting the interaction fails because one is
already active on the thread, the error is NOT caught by the
per-iteration handler: it reaches the outermost handler of `run()`,
is logged with the ", thread terminated" suffix, and the loop
terminates without asking `scheduleNextWork` again (the `ext` counter
shows exactly one schedule call; no work, cleanup, connection or log
entry of the per-iteration kind is produced). -/
theorem interaction_error_terminates (cfg : ThreadCfg) (N f : Nat) (s : St)
    (hi : s.interaction = true) (hx : s.ext = N + 1) :
    threadRun cfg hooksOk (f + 1) s =
      (Except.ok (),
        { s with ext := N,
                 logvals := s.logvals ++
                   ["Exception in " ++ cfg.name ++ ", thread terminated"] }) := by
  have hs : hooksOk.scheduleNextWork s = (Except.ok true, { s with ext := N }) := by
    show schedCounter s = _
    simp [schedCounter, hx]
  have hit := iteration_interaction_active cfg hooksOk { s with ext := N } hi
  have h2 : runLoop cfg hooksOk (f + 1) s =
      (Except.error "AssertionError: interaction already in progress",
        { s with ext := N }) :=
    runLoop_succ_iter_err cfg hooksOk f s { s with ext := N } { s with ext := N } _ hs hit
  rw [threadRun_eval_err cfg hooksOk (f + 1) s { s with ext := N } _ h2]

/-- Witness for the amended C5 on a concrete thread and state. -/
theorem interaction_error_terminates_witness :
    threadRun cfg0 hooksOk 3 { st0 with interaction := true, ext := 2 } =
      (Except.ok (),
        { st0 with interaction := true, ext := 1,
                   logvals := ["Exception in " ++ cfg0.name ++ ", thread terminated"] }) :=
  interaction_error_terminates cfg0 1 2 { st0 with interaction := true, ext := 2 } rfl rfl

/-- Counterexample to C5 as stated: with an interaction already active
and two tasks pending, `run()` logs the "thread terminated" message
(not the per-iteration "Exception in name" message) and stops after a
single `scheduleNextWork` call (one task remains unscheduled), so the
error is terminal and is not handled by the per-iteration catch. -/
theorem interaction_error_nonterminal_cex :
    (threadRun cfg0 hooksOk 3 { st0 with interaction := true, ext := 2 }).2.ext = 1 ∧
    (threadRun cfg0 hooksOk 3 { st0 with interaction := true, ext := 2 }).2.trace = [] ∧
    (threadRun cfg0 hooksOk 3 { st0 with interaction := true, ext := 2 }).2.logvals =
      ["Exception in background worker thread (T) for testsite, thread terminated"] ∧
    ¬ (threadRun cfg0 hooksOk 3 { st0 with interaction := true, ext := 2 }).2.logvals =
      ["Exception in background worker thread (T) for testsite"] := by
  refine ⟨rfl, rfl, rfl, ?_⟩
  decide

/-! ## Site scope -/

/-- C6: the site scope restores the exact previous thread-local site
value on exit regardless of the body's outcome, and nesting two scopes
samples the sequence [A-visible, B-visible, A-visible,
previous-value-visible] at the four sampling points. -/
theorem ZopeSite_restores_and_nests (a b : Nat) (body : M Unit) (s0 : St) :
    (ZopeSite a body s0).2.site = s0.site ∧
    siteNestScenario a b s0 =
      (Except.ok (),
        { s0 with trace := s0.trace ++
            [Event.sample (some a), Event.sample (some b), Event.sample (some a),
             Event.sample s0.site] }) := by
  constructor
  · show (mbind hooksGetSite _ s0).2.site = s0.site
    rw [mbind_eval hooksGetSite _ s0 s0.site s0 rfl]
    rcases hb : mbind (hooksSetSite (some a)) (fun _ => body) s0 with ⟨r, s1⟩
    cases r with
    | ok u =>
        rw [mtryFinally_eval_ok _ _ s0 u s1 { s1 with site := s0.site } hb rfl]
    | error e =>
        rw [mtryFinally_eval_err _ _ s0 e s1 { s1 with site := s0.site } hb rfl]
  · simp [siteNestScenario, ZopeSite, sampleSite, mbind, mret, mtryFinally,
      hooksGetSite, hooksSetSite]

/-! ## Transaction scope: commit on success, abort on failure -/

theorem txnCommit_shape (s : St) : txnCommit s = (Except.ok (), (txnCommit s).2) := by
  rcases h : s.curTxn <;> simp [txnCommit, h]

theorem txnAbort_shape (s : St) : txnAbort s = (Except.ok (), (txnAbort s).2) := by
  rcases h : s.curTxn <;> simp [txnAbort, h]

theorem txnCommit_events (s : St) :
    (txnCommit s).2.txnEvents = s.txnEvents ++ [TxnEvent.committed (ambientTid s)] := by
  rcases h : s.curTxn <;> simp [txnCommit, ambientTid, h]

theorem txnAbort_events (s : St) :
    (txnAbort s).2.txnEvents = s.txnEvents ++ [TxnEvent.aborted (ambientTid s)] := by
  rcases h : s.curTxn <;> simp [txnAbort, ambientTid, h]

/-- C2: the transaction scope commits the ambient transaction at exit
whenever the body completes without raising, and aborts the ambient
transaction and re-raises the body's exception unchanged whenever the
body raises. -/
theorem ZopeTransaction_commits_aborts (user note : Option String) (path : String)
    (body : Txn → M Unit) (s0 s1 : St) (t : Txn)
    (hEnter : txnScopeEnter user note path s0 = (Except.ok t, s1)) :
    (∀ s2 : St, body t s1 = (Except.ok (), s2) →
        ZopeTransaction user note path body s0 = (Except.ok (), (txnCommit s2).2) ∧
        (txnCommit s2).2.txnEvents =
          s2.txnEvents ++ [TxnEvent.committed (ambientTid s2)]) ∧
    (∀ (e : Err) (s2 : St), body t s1 = (Except.error e, s2) →
        ZopeTransaction user note path body s0 = (Except.error e, (txnAbort s2).2) ∧
        (txnAbort s2).2.txnEvents =
          s2.txnEvents ++ [TxnEvent.aborted (ambientTid s2)]) := by
  have hbegin : txnBegin s0 = (Except.ok (⟨s0.nextTid, none, none⟩ : Txn), (txnBegin s0).2) := rfl
  rw [txnScopeEnter, mbind_eval txnBegin _ s0 _ _ hbegin] at hEnter
  rcases hstamp : txnStamp realOps ⟨s0.nextTid, none, none⟩ user note path (txnBegin s0).2
    with ⟨rs, ss⟩
  cases rs with
  | error e =>
      rw [mbind_eval_err _ _ _ e ss hstamp] at hEnter
      cases hEnter
  | ok u =>
      rw [mbind_eval _ _ _ u ss hstamp] at hEnter
      have hpair : (Except.ok (⟨s0.nextTid, none, none⟩ : Txn), ss) =
          ((Except.ok t : Except Err Txn), s1) := hEnter
      injection hpair with hfst hsnd
      injection hfst with hteq
      subst hsnd
      subst hteq
      constructor
      · intro s2 hb
        have hinner : mbind (txnStamp realOps ⟨s0.nextTid, none, none⟩ user note path)
            (fun _ => mbind (body ⟨s0.nextTid, none, none⟩) (fun a =>
              mbind txnCommit (fun _ => mret a))) (txnBegin s0).2 =
            (Except.ok (), (txnCommit s2).2) := by
          rw [mbind_eval _ _ _ u ss hstamp, mbind_eval _ _ ss () s2 hb,
            mbind_eval txnCommit _ s2 () (txnCommit s2).2 (txnCommit_shape s2)]
          rfl
        refine ⟨?_, txnCommit_events s2⟩
        rw [ZopeTransaction, ZopeTransactionG, mbind_eval txnBegin _ s0 _ _ hbegin]
        exact mtryCatch_eval_ok _ _ _ () (txnCommit s2).2 hinner
      · intro e s2 hb
        have hinner : mbind (txnStamp realOps ⟨s0.nextTid, none, none⟩ user note path)
            (fun _ => mbind (body ⟨s0.nextTid, none, none⟩) (fun a =>
              mbind txnCommit (fun _ => mret a))) (txnBegin s0).2 =
            (Except.error e, s2) := by
          rw [mbind_eval _ _ _ u ss hstamp]
          exact mbind_eval_err _ _ ss e s2 hb
        refine ⟨?_, txnAbort_events s2⟩
        rw [ZopeTransaction, ZopeTransactionG, mbind_eval txnBegin _ s0 _ _ hbegin,
          mtryCatch_eval_err _ _ _ e s2 hinner,
          mbind_eval txnAbort _ s2 () (txnAbort s2).2 (txnAbort_shape s2)]
        rfl

/-- Witness for C2: a trivial body at a concrete initial state, showing
the scope commits the ambient transaction. -/
theorem ZopeTransaction_commits_aborts_witness :
    ZopeTransaction none none "/" (fun _ => mret ()) st0 =
      (Except.ok (), (txnCommit { st0 with curTxn := some ⟨0, none, none⟩, nextTid := 1 }).2) :=
  ((ZopeTransaction_commits_aborts none none "/" (fun _ => mret ()) st0
      { st0 with curTxn := some ⟨0, none, none⟩, nextTid := 1 } ⟨0, none, none⟩ rfl).1
    { st0 with curTxn := some ⟨0, none, none⟩, nextTid := 1 } rfl).1

/-! ## Transaction scope entry -/

/-- C7: entering the transaction scope with a pending uncommitted
ambient transaction discards (aborts) it and begins a fresh one without
raising; the supplied user is attached with the path and the supplied
note becomes the description, both before the body runs (the body is
invoked on exactly the stamped state). -/
theorem ZopeTransaction_entry_discards_and_stamps (u n p : String)
    (hu : u ≠ "") (hn : n ≠ "") (s0 : St) (t0 : Txn)
    (hcur : s0.curTxn = some t0) :
    txnScopeEnter (some u) (some n) p s0 =
      (Except.ok (⟨s0.nextTid, none, none⟩ : Txn),
        { s0 with curTxn := some ⟨s0.nextTid, some (p ++ " " ++ u), some n⟩,
                  nextTid := s0.nextTid + 1,
                  txnEvents := s0.txnEvents ++ [TxnEvent.aborted t0.tid] }) ∧
    ∀ body : Txn → M Unit,
      ZopeTransaction (some u) (some n) p body s0 =
        mtryCatch
          (mbind (body ⟨s0.nextTid, none, none⟩) (fun a =>
            mbind txnCommit (fun _ => mret a)))
          (fun e => mbind txnAbort (fun _ => mthrow e))
          { s0 with curTxn := some ⟨s0.nextTid, some (p ++ " " ++ u), some n⟩,
                    nextTid := s0.nextTid + 1,
                    txnEvents := s0.txnEvents ++ [TxnEvent.aborted t0.tid] } := by
  have hbegin : txnBegin s0 =
      (Except.ok (⟨s0.nextTid, none, none⟩ : Txn),
        { s0 with curTxn := some ⟨s0.nextTid, none, none⟩,
                  nextTid := s0.nextTid + 1,
                  txnEvents := s0.txnEvents ++ [TxnEvent.aborted t0.tid] }) := by
    simp [txnBegin, hcur]
  have hstamp : txnStamp realOps ⟨s0.nextTid, none, none⟩ (some u) (some n) p
      { s0 with curTxn := some ⟨s0.nextTid, none, none⟩,
                nextTid := s0.nextTid + 1,
                txnEvents := s0.txnEvents ++ [TxnEvent.aborted t0.tid] } =
      (Except.ok (),
        { s0 with curTxn := some ⟨s0.nextTid, some (p ++ " " ++ u), some n⟩,
                  nextTid := s0.nextTid + 1,
                  txnEvents := s0.txnEvents ++ [TxnEvent.aborted t0.tid] }) := by
    simp [txnStamp, realOps, txnSetUser, txnNote, mbind, mret, pyTruthy, hu, hn]
  constructor
  · rw [txnScopeEnter, mbind_eval txnBegin _ s0 _ _ hbegin,
      mbind_eval _ _ _ () _ hstamp]
    rfl
  · intro body
    rw [ZopeTransaction, ZopeTransactionG, mbind_eval txnBegin _ s0 _ _ hbegin]
    exact mtryCatch_congr _ _ _ _ _ (mbind_eval _ _ _ () _ hstamp)

/-- Witness for C7 at a concrete state with a pending transaction. -/
theorem ZopeTransaction_entry_discards_and_stamps_witness :
    txnScopeEnter (some "admin") (some "maintenance") "/"
        { st0 with curTxn := some ⟨5, none, none⟩, nextTid := 6 } =
      (Except.ok (⟨6, none, none⟩ : Txn),
        { st0 with curTxn := some ⟨6, some ("/" ++ " " ++ "admin"), some "maintenance"⟩,
                   nextTid := 7, txnEvents := [TxnEvent.aborted 5] }) :=
  (ZopeTransaction_entry_discards_and_stamps "admin" "maintenance" "/"
    (by decide) (by decide)
    { st0 with curTxn := some ⟨5, none, none⟩, nextTid := 6 } ⟨5, none, none⟩ rfl).1

/-- C9: if attaching the user identity or the note raises during scope
entry (before the body has run), the newly begun ambient transaction is
aborted and the exception re-raised: the abort-on-exception guarantee
covers the metadata-stamping phase. -/
theorem ZopeTransaction_stamp_failure_aborts (ops : TxnObjOps) (p : String)
    (body : Txn → M Unit) (s0 : St) (e : Err) (h0 : s0.curTxn = none) :
    (∀ u : String, u ≠ "" →
      (∀ (t : Txn) (s : St), ops.setUser t u p s = (Except.error e, s)) →
      ZopeTransactionG ops (some u) none p body s0 =
        (Except.error e,
          { s0 with nextTid := s0.nextTid + 1, curTxn := none,
                    txnEvents := s0.txnEvents ++ [TxnEvent.aborted s0.nextTid] })) ∧
    (∀ n : String, n ≠ "" →
      (∀ (t : Txn) (s : St), ops.note t n s = (Except.error e, s)) →
      ZopeTransactionG ops none (some n) p body s0 =
        (Except.error e,
          { s0 with nextTid := s0.nextTid + 1, curTxn := none,
                    txnEvents := s0.txnEvents ++ [TxnEvent.aborted s0.nextTid] })) := by
  constructor
  · intro u hu hfail
    simp [ZopeTransactionG, txnStamp, txnBegin, txnAbort, mbind, mret, mthrow,
      mtryCatch, pyTruthy, h0, hu, hfail]
  · intro n hn hfail
    simp [ZopeTransactionG, txnStamp, txnBegin, txnAbort, mbind, mret, mthrow,
      mtryCatch, pyTruthy, h0, hn, hfail]

/-- Witness for C9 with concrete always-failing stamping methods. -/
theorem ZopeTransaction_stamp_failure_aborts_witness :
    ZopeTransactionG failingOps (some "admin") none "/" (fun _ => mret ()) st0 =
      (Except.error "TypeError",
        { st0 with nextTid := 1, curTxn := none,
                   txnEvents := [TxnEvent.aborted 0] }) ∧
    ZopeTransactionG failingOps none (some "maintenance") "/" (fun _ => mret ()) st0 =
      (Except.error "TypeError",
        { st0 with nextTid := 1, curTxn := none,
                   txnEvents := [TxnEvent.aborted 0] }) :=
  ⟨(ZopeTransaction_stamp_failure_aborts failingOps "/" (fun _ => mret ()) st0
      "TypeError" rfl).1 "admin" (by decide) (fun _ _ => rfl),
   (ZopeTransaction_stamp_failure_aborts failingOps "/" (fun _ => mret ()) st0
      "TypeError" rfl).2 "maintenance" (by decide) (fun _ _ => rfl)⟩

/-! ## Transaction notes -/

/-- C8: with the default template `getTransactionNote()` returns exactly
the thread's display name; the default cleanup note is the thread name
followed by " cleanup"; and a custom template with site-name/user-name
placeholders returns the template with those values substituted
verbatim. -/
theorem transaction_notes_spec (cfg : ThreadCfg)
    (hW : cfg.work_transaction_note = "%(thread_name)s")
    (hC : cfg.cleanup_transaction_note = "%(thread_name)s cleanup") :
    getTransactionNote cfg = some cfg.name ∧
    getCleanupNote cfg = some (cfg.name ++ " cleanup") ∧
    ∀ cfg2 : ThreadCfg,
      cfg2.work_transaction_note = "work for %(site_name)s on behalf of %(user_name)s" →
      getTransactionNote cfg2 =
        some ("work for " ++ cfg2.site_name ++ " on behalf of " ++ cfg2.user_name) := by
  refine ⟨?_, ?_, ?_⟩
  · rw [getTransactionNote, hW]; exact pformat_thread_name cfg
  · rw [getCleanupNote, hC]; exact pformat_thread_name_cleanup cfg
  · intro cfg2 h2
    rw [getTransactionNote, h2]; exact pformat_site_user cfg2

/-- Witness for C8 on a concrete thread configuration. -/
theorem transaction_notes_spec_witness :
    getTransactionNote cfg0 = some cfg0.name ∧
    getCleanupNote cfg0 = some (cfg0.name ++ " cleanup") ∧
    getTransactionNote
        { cfg0 with work_transaction_note :=
            "work for %(site_name)s on behalf of %(user_name)s" } =
      some ("work for " ++ cfg0.site_name ++ " on behalf of " ++ cfg0.user_name) :=
  ⟨(transaction_notes_spec cfg0 rfl rfl).1,
   (transaction_notes_spec cfg0 rfl rfl).2.1,
   (transaction_notes_spec cfg0 rfl rfl).2.2
     { cfg0 with work_transaction_note :=
         "work for %(site_name)s on behalf of %(user_name)s" } rfl⟩
